import Mathlib

/-!
Verification of the LocalMUD combat core (player attributes, wound
thresholds, duel engine, arena engine) against its natural-language
specification.  The Python sources are shallowly embedded: every
stateful method becomes an explicit state-passing function, every call
to `random.randint` / `random.choice` / `random.random` becomes an
oracle parameter (or a draw popped from an explicit oracle stream in
the turn loops), Python `//` becomes `Int.fdiv` (floor division),
Python `int()` on a nonnegative float becomes rational truncation, and
Python floats are modelled as exact rationals.
-/

namespace LocalMUD

/-- Python `//` on ints: floor division. -/
def pyDiv (a b : Int) : Int := Int.fdiv a b

/-- Python `int()` applied to a rational: truncation toward zero. -/
def pyTrunc (q : ℚ) : Int := if 0 ≤ q then ⌊q⌋ else -⌊-q⌋

/-- Oracle model of `random.randint(a, b)`: the oracle value is clamped
into `[a, b]`, so every value in the range is reachable and no value
outside it is. -/
def randint (a b x : Int) : Int := max a (min b x)

/-! ### Stances (player.py, STANCE_PROFILES) -/

inductive Stance
  | aggressive
  | balanced
  | defensive
deriving DecidableEq, Repr

structure StanceProfile where
  damage : ℚ
  hit : Int
  dodge : Int
deriving DecidableEq, Repr

/-- STANCE_PROFILES from player.py. -/
def stanceProfile : Stance → StanceProfile
  | .aggressive => ⟨12/10, 10, -10⟩
  | .balanced => ⟨1, 0, 0⟩
  | .defensive => ⟨85/100, -5, 12⟩

/-- Membership test against the STANCE_PROFILES keys, used by
`change_stance` and by `.get(name, balanced)` lookups on raw strings.
The player's own stance field is represented by the `Stance` type since
`change_stance` only ever stores one of the three valid names. -/
def parseStance (s : String) : Option Stance :=
  if s = "aggressive" then some .aggressive
  else if s = "balanced" then some .balanced
  else if s = "defensive" then some .defensive
  else none

/-- `STANCE_PROFILES.get(name, STANCE_PROFILES["balanced"])`. -/
def stanceGetD (s : String) : StanceProfile :=
  ((parseStance s).map stanceProfile).getD (stanceProfile .balanced)

/-! ### Action modifiers (duel.py, ACTION_MODIFIERS) -/

structure ActionEffect where
  hit : Int
  damage : ℚ
  dodge : Int
  armor : Int
deriving DecidableEq, Repr

def strikeEffect : ActionEffect := ⟨0, 1, 0, 0⟩
def feintEffect : ActionEffect := ⟨12, 65/100, 0, 0⟩
def blockEffect : ActionEffect := ⟨-5, 75/100, 6, 4⟩
def dodgeEffect : ActionEffect := ⟨-12, 45/100, 18, 0⟩

/-- ACTION_MODIFIERS dictionary from duel.py. -/
def actionModifiers (a : String) : Option ActionEffect :=
  if a = "strike" then some strikeEffect
  else if a = "feint" then some feintEffect
  else if a = "block" then some blockEffect
  else if a = "dodge" then some dodgeEffect
  else none

/-! ### Items (items.py) -/

structure Weapon where
  id : String
  name : String
  description : String
  damage_min : Int
  damage_max : Int
  weapon_type : String
deriving DecidableEq, Repr

structure Armor where
  slot : String
  armor_value : Int
  dodge_penalty : Int
deriving DecidableEq, Repr

structure Item where
  id : String
  name : String
deriving DecidableEq, Repr

/-! ### Skill dictionaries

Python `Dict[str, int]` with its insertion-order update semantics,
modelled as an association list: assignment replaces the first binding
of the key or appends a fresh one. -/

def lookupSkill : List (String × Int) → String → Option Int
  | [], _ => none
  | (k', v') :: rest, k => if k' = k then some v' else lookupSkill rest k

def setSkill : List (String × Int) → String → Int → List (String × Int)
  | [], k, v => [(k, v)]
  | (k', v') :: rest, k, v =>
      if k' = k then (k, v) :: rest else (k', v') :: setSkill rest k v

def WEAPON_TYPES : List String := ["spear", "sword", "knife", "shardblade", "fists"]

/-! ### Player (player.py), restricted to the combat core.

Room navigation, inventory, quests, jobs, reputation and dialogue are
out of the spec's scope and are omitted; `_wound_modifiers` becomes the
two fields `wound_strength` / `wound_dexterity`, and the
`_active_wound_thresholds` set of floats becomes a `Finset ℚ`. -/

structure Player where
  strength : Int
  dexterity : Int
  endurance : Int
  willpower : Int
  max_hp : Int
  current_hp : Int
  equipped_weapon : Option Weapon
  equipped_armor : List Armor
  stance : Stance
  weapon_skill : List (String × Int)
  dodge_skill : Int
  armor_rating : Int
  dodge_rating : Int
  wound_strength : Int
  wound_dexterity : Int
  active_wound_thresholds : Finset ℚ
deriving DecidableEq

/-- `effective_strength`: base strength plus wound delta, floored at 1. -/
def effective_strength (p : Player) : Int :=
  max 1 (p.strength + p.wound_strength)

/-- `effective_dexterity`: base dexterity plus wound delta, floored at 1. -/
def effective_dexterity (p : Player) : Int :=
  max 1 (p.dexterity + p.wound_dexterity)

/-- Value computed by `calculate_armor_rating`: sum of the armor values
of the equipped pieces. -/
def armorRatingVal (p : Player) : Int :=
  (p.equipped_armor.map Armor.armor_value).sum

/-- Value computed by `calculate_dodge_rating`. -/
def dodgeRatingVal (p : Player) : Int :=
  let penalty := (p.equipped_armor.map Armor.dodge_penalty).sum
  let stance_bonus := (stanceProfile p.stance).dodge
  let base := effective_dexterity p * 2 + p.dodge_skill
  max 0 (base - penalty + stance_bonus)

/-- `calculate_dodge_rating` refreshes the cached rating field. -/
def recalcDodge (p : Player) : Player :=
  { p with dodge_rating := dodgeRatingVal p }

/-- `calculate_armor_rating` refreshes the cached rating field. -/
def recalcArmor (p : Player) : Player :=
  { p with armor_rating := armorRatingVal p }

/-- One row of WOUND_THRESHOLDS: (hp-ratio threshold, strength delta,
dexterity delta, narration). -/
structure WoundEntry where
  threshold : ℚ
  strength_mod : Int
  dexterity_mod : Int
  message : String
deriving DecidableEq

def WOUND_THRESHOLDS : List WoundEntry :=
  [⟨75/100, -1, 0, "Bruises bloom across your arms."⟩,
   ⟨50/100, -1, -1, "You wince as deeper aches slow your movements."⟩,
   ⟨25/100, -2, -2, "Blood loss leaves your limbs trembling."⟩,
   ⟨10/100, -3, -3, "You can barely stay upright through the pain."⟩]

/-- `current_hp / max_hp` as an exact rational. -/
def hpFraction (p : Player) : ℚ := (p.current_hp : ℚ) / (p.max_hp : ℚ)

/-- One iteration of the loop in `_update_wound_thresholds`. -/
def woundStep (r : ℚ) (p : Player) (e : WoundEntry) : Player :=
  if r ≤ e.threshold ∧ e.threshold ∉ p.active_wound_thresholds then
    { p with active_wound_thresholds := insert e.threshold p.active_wound_thresholds,
             wound_strength := p.wound_strength + e.strength_mod,
             wound_dexterity := p.wound_dexterity + e.dexterity_mod }
  else if ¬ r ≤ e.threshold ∧ e.threshold ∈ p.active_wound_thresholds ∧
          e.threshold + 5/100 < r then
    { p with active_wound_thresholds := p.active_wound_thresholds.erase e.threshold,
             wound_strength := p.wound_strength - e.strength_mod,
             wound_dexterity := p.wound_dexterity - e.dexterity_mod }
  else p

/-- `_update_wound_thresholds(previous_ratio)`.  The previous-ratio
argument is kept because the source takes it, but (as in the source) it
is never consulted. -/
def updateWoundThresholds (p : Player) (_previousRat : ℚ) : Player :=
  if p.max_hp = 0 then p
  else WOUND_THRESHOLDS.foldl (woundStep (hpFraction p)) p

/-- `gain_weapon_xp(weapon_type, amount)`. The `"fists"` key is present
from construction on, so the inner direct index is modelled with a 0
default that is never exercised. -/
def gain_weapon_xp (p : Player) (weapon_type : String) (amount : Int) : Player :=
  let current := (lookupSkill p.weapon_skill weapon_type).getD
    ((lookupSkill p.weapon_skill "fists").getD 0)
  { p with weapon_skill := setSkill p.weapon_skill weapon_type (min 100 (current + amount)) }

/-- `gain_dodge_xp(amount)`. -/
def gain_dodge_xp (p : Player) (amount : Int) : Player :=
  recalcDodge { p with dodge_skill := min 100 (p.dodge_skill + amount) }

/-- `take_damage(amount, armor_bonus)`: mitigation floored at 1, HP
clamped at 0, wound thresholds and dodge rating refreshed; returns the
mitigated amount alongside the new state. -/
def take_damage (p : Player) (amount : Int) (armor_bonus : Int) : Player × Int :=
  let p1 := recalcArmor p
  let mitigated := max 1 (amount - (p1.armor_rating + armor_bonus))
  let previous : ℚ := if p1.max_hp = 0 then 0 else hpFraction p1
  let p2 := { p1 with current_hp := max 0 (p1.current_hp - mitigated) }
  let p3 := updateWoundThresholds p2 previous
  (recalcDodge p3, mitigated)

/-- `heal(amount)`. -/
def heal (p : Player) (amount : Int) : Player × Int :=
  let previous : ℚ := if p.max_hp = 0 then 0 else hpFraction p
  let healed := min amount (p.max_hp - p.current_hp)
  let p2 := { p with current_hp := p.current_hp + healed }
  (recalcDodge (updateWoundThresholds p2 previous), healed)

/-- `change_stance(name)`: unknown names and the current stance are
no-ops (message-only); otherwise switch stance and refresh the dodge
rating.  The `stance.lower()` normalization is omitted: inputs are
modelled as already lowercased (the prompts lowercase them). -/
def change_stance (p : Player) (s : String) : Player :=
  match parseStance s with
  | none => p
  | some st => if st = p.stance then p else recalcDodge { p with stance := st }

/-- Combat-relevant part of `Player.__init__`. -/
def initPlayer : Player :=
  let base : Player :=
    { strength := 6, dexterity := 5, endurance := 6, willpower := 5,
      max_hp := 20 + 6 * 2, current_hp := 20 + 6 * 2,
      equipped_weapon := none, equipped_armor := [],
      stance := .balanced,
      weapon_skill := WEAPON_TYPES.map (fun w => (w, 5)),
      dodge_skill := 5,
      armor_rating := 0, dodge_rating := 0,
      wound_strength := 0, wound_dexterity := 0,
      active_wound_thresholds := ∅ }
  recalcDodge (recalcArmor base)

/-! ### Helper lemmas: fields preserved by the wound bookkeeping -/

theorem recalcDodge_current_hp (p : Player) : (recalcDodge p).current_hp = p.current_hp := rfl

theorem recalcDodge_max_hp (p : Player) : (recalcDodge p).max_hp = p.max_hp := rfl

theorem woundStep_current_hp (r : ℚ) (p : Player) (e : WoundEntry) :
    (woundStep r p e).current_hp = p.current_hp := by
  unfold woundStep; split_ifs <;> rfl

theorem woundStep_max_hp (r : ℚ) (p : Player) (e : WoundEntry) :
    (woundStep r p e).max_hp = p.max_hp := by
  unfold woundStep; split_ifs <;> rfl

theorem foldWound_current_hp (r : ℚ) (l : List WoundEntry) (p : Player) :
    (l.foldl (woundStep r) p).current_hp = p.current_hp := by
  induction l generalizing p with
  | nil => rfl
  | cons x xs ih => simp [List.foldl, ih, woundStep_current_hp]

theorem foldWound_max_hp (r : ℚ) (l : List WoundEntry) (p : Player) :
    (l.foldl (woundStep r) p).max_hp = p.max_hp := by
  induction l generalizing p with
  | nil => rfl
  | cons x xs ih => simp [List.foldl, ih, woundStep_max_hp]

theorem updateWoundThresholds_current_hp (p : Player) (prev : ℚ) :
    (updateWoundThresholds p prev).current_hp = p.current_hp := by
  unfold updateWoundThresholds
  split_ifs
  · rfl
  · exact foldWound_current_hp _ _ _

theorem updateWoundThresholds_max_hp (p : Player) (prev : ℚ) :
    (updateWoundThresholds p prev).max_hp = p.max_hp := by
  unfold updateWoundThresholds
  split_ifs
  · rfl
  · exact foldWound_max_hp _ _ _

/-! ### Behaviour of a single wound-threshold step -/

theorem woundStep_mem_self (r : ℚ) (p : Player) (e : WoundEntry) :
    e.threshold ∈ (woundStep r p e).active_wound_thresholds ↔
      (r ≤ e.threshold ∨
        (e.threshold ∈ p.active_wound_thresholds ∧ ¬ e.threshold + 5/100 < r)) := by
  unfold woundStep
  split_ifs with h1 h2
  · simp [Finset.mem_insert_self, h1.1]
  · simp [Finset.mem_erase, h2.1, h2.2.2]
  · constructor
    · intro hm
      by_cases hr : r ≤ e.threshold
      · exact Or.inl hr
      · exact Or.inr ⟨hm, fun hlt => h2 ⟨hr, hm, hlt⟩⟩
    · intro hor
      rcases hor with hr | ⟨hm, _⟩
      · by_contra hm
        exact h1 ⟨hr, hm⟩
      · exact hm

theorem woundStep_mem_other (r : ℚ) (p : Player) (e : WoundEntry) (t : ℚ)
    (h : t ≠ e.threshold) :
    t ∈ (woundStep r p e).active_wound_thresholds ↔
      t ∈ p.active_wound_thresholds := by
  unfold woundStep
  split_ifs <;> simp [Finset.mem_insert, Finset.mem_erase, h]

/-- The attribute delta each threshold row contributes in one pass of
`_update_wound_thresholds`, as a function of whether the row was active
before the pass: the penalty is applied on activation, reverted on
deactivation, and zero otherwise. -/
def woundContrib (r : ℚ) (wasActive : Bool) (m : Int) (e : WoundEntry) : Int :=
  if r ≤ e.threshold ∧ wasActive = false then m
  else if ¬ r ≤ e.threshold ∧ wasActive = true ∧ e.threshold + 5/100 < r then -m
  else 0

theorem woundStep_wound_strength (r : ℚ) (p : Player) (e : WoundEntry) :
    (woundStep r p e).wound_strength =
      p.wound_strength +
        woundContrib r (decide (e.threshold ∈ p.active_wound_thresholds)) e.strength_mod e := by
  unfold woundStep woundContrib
  by_cases hm : e.threshold ∈ p.active_wound_thresholds <;>
    split_ifs <;> simp_all <;> omega

theorem woundStep_wound_dexterity (r : ℚ) (p : Player) (e : WoundEntry) :
    (woundStep r p e).wound_dexterity =
      p.wound_dexterity +
        woundContrib r (decide (e.threshold ∈ p.active_wound_thresholds)) e.dexterity_mod e := by
  unfold woundStep woundContrib
  by_cases hm : e.threshold ∈ p.active_wound_thresholds <;>
    split_ifs <;> simp_all <;> omega

theorem woundStep_id (r : ℚ) (p : Player) (e : WoundEntry)
    (h1 : r ≤ e.threshold → e.threshold ∈ p.active_wound_thresholds)
    (h2 : e.threshold ∈ p.active_wound_thresholds → ¬ e.threshold + 5/100 < r) :
    woundStep r p e = p := by
  unfold woundStep
  split_ifs with ha hb
  · exact absurd (h1 ha.1) ha.2
  · exact absurd hb.2.2 (h2 hb.2.1)
  · rfl

/-! ### Behaviour of the whole threshold pass (fold over the table) -/

theorem foldWound_mem_not_listed (r : ℚ) (l : List WoundEntry) (p : Player) (t : ℚ)
    (h : t ∉ l.map WoundEntry.threshold) :
    t ∈ (l.foldl (woundStep r) p).active_wound_thresholds ↔
      t ∈ p.active_wound_thresholds := by
  induction l generalizing p with
  | nil => exact Iff.rfl
  | cons x xs ih =>
      simp only [List.map_cons, List.mem_cons, not_or] at h
      rw [List.foldl_cons, ih _ h.2, woundStep_mem_other _ _ _ _ h.1]

theorem foldWound_mem_char (r : ℚ) (l : List WoundEntry) (p : Player) (e : WoundEntry)
    (hl : (l.map WoundEntry.threshold).Nodup) (he : e ∈ l) :
    e.threshold ∈ (l.foldl (woundStep r) p).active_wound_thresholds ↔
      (r ≤ e.threshold ∨
        (e.threshold ∈ p.active_wound_thresholds ∧ ¬ e.threshold + 5/100 < r)) := by
  induction l generalizing p with
  | nil => cases he
  | cons x xs ih =>
      simp only [List.map_cons, List.nodup_cons] at hl
      rcases List.mem_cons.mp he with rfl | hmem
      · rw [List.foldl_cons,
            foldWound_mem_not_listed r xs (woundStep r p e) e.threshold hl.1,
            woundStep_mem_self]
      · have hne : e.threshold ≠ x.threshold := by
          intro hEq
          exact hl.1 (hEq ▸ List.mem_map_of_mem WoundEntry.threshold hmem)
        rw [List.foldl_cons, ih _ hl.2 hmem, woundStep_mem_other _ _ _ _ hne]

theorem foldWound_wound_strength (r : ℚ) (l : List WoundEntry) (p : Player)
    (hl : (l.map WoundEntry.threshold).Nodup) :
    (l.foldl (woundStep r) p).wound_strength =
      p.wound_strength +
        (l.map fun e =>
          woundContrib r (decide (e.threshold ∈ p.active_wound_thresholds))
            e.strength_mod e).sum := by
  induction l generalizing p with
  | nil => simp
  | cons x xs ih =>
      simp only [List.map_cons, List.nodup_cons] at hl
      rw [List.foldl_cons, ih _ hl.2, woundStep_wound_strength]
      have hmap : (xs.map fun e =>
          woundContrib r (decide (e.threshold ∈ (woundStep r p x).active_wound_thresholds))
            e.strength_mod e) =
          xs.map fun e =>
            woundContrib r (decide (e.threshold ∈ p.active_wound_thresholds))
              e.strength_mod e := by
        apply List.map_congr_left
        intro a ha
        have hne : a.threshold ≠ x.threshold := by
          intro hEq
          exact hl.1 (hEq ▸ List.mem_map_of_mem WoundEntry.threshold ha)
        rw [decide_eq_decide.mpr (woundStep_mem_other r p x a.threshold hne)]
      rw [hmap]
      simp [List.sum_cons]
      omega

theorem foldWound_wound_dexterity (r : ℚ) (l : List WoundEntry) (p : Player)
    (hl : (l.map WoundEntry.threshold).Nodup) :
    (l.foldl (woundStep r) p).wound_dexterity =
      p.wound_dexterity +
        (l.map fun e =>
          woundContrib r (decide (e.threshold ∈ p.active_wound_thresholds))
            e.dexterity_mod e).sum := by
  induction l generalizing p with
  | nil => simp
  | cons x xs ih =>
      simp only [List.map_cons, List.nodup_cons] at hl
      rw [List.foldl_cons, ih _ hl.2, woundStep_wound_dexterity]
      have hmap : (xs.map fun e =>
          woundContrib r (decide (e.threshold ∈ (woundStep r p x).active_wound_thresholds))
            e.dexterity_mod e) =
          xs.map fun e =>
            woundContrib r (decide (e.threshold ∈ p.active_wound_thresholds))
              e.dexterity_mod e := by
        apply List.map_congr_left
        intro a ha
        have hne : a.threshold ≠ x.threshold := by
          intro hEq
          exact hl.1 (hEq ▸ List.mem_map_of_mem WoundEntry.threshold ha)
        rw [decide_eq_decide.mpr (woundStep_mem_other r p x a.threshold hne)]
      rw [hmap]
      simp [List.sum_cons]
      omega

theorem foldWound_id (r : ℚ) (l : List WoundEntry) (p : Player)
    (h : ∀ e ∈ l, (r ≤ e.threshold → e.threshold ∈ p.active_wound_thresholds) ∧
        (e.threshold ∈ p.active_wound_thresholds → ¬ e.threshold + 5/100 < r)) :
    l.foldl (woundStep r) p = p := by
  induction l with
  | nil => rfl
  | cons x xs ih =>
      have hx := h x (List.mem_cons_self x xs)
      rw [List.foldl_cons, woundStep_id r p x hx.1 hx.2]
      exact ih fun e he => h e (List.mem_cons_of_mem x he)

theorem wound_table_nodup : (WOUND_THRESHOLDS.map WoundEntry.threshold).Nodup := by
  simp [WOUND_THRESHOLDS]
  norm_num

theorem recalcArmor_current_hp (p : Player) : (recalcArmor p).current_hp = p.current_hp := rfl

theorem recalcArmor_armor_rating (p : Player) :
    (recalcArmor p).armor_rating = armorRatingVal p := rfl

theorem take_damage_current_hp (p : Player) (amount armor_bonus : Int) :
    (take_damage p amount armor_bonus).1.current_hp =
      max 0 (p.current_hp - max 1 (amount - (armorRatingVal p + armor_bonus))) := by
  simp only [take_damage, recalcDodge_current_hp, updateWoundThresholds_current_hp]
  rfl

theorem updateWoundThresholds_idem (p : Player) (prev prev' : ℚ) :
    updateWoundThresholds (updateWoundThresholds p prev) prev' =
      updateWoundThresholds p prev := by
  by_cases hmax : p.max_hp = 0
  · simp [updateWoundThresholds, hmax]
  · set q := updateWoundThresholds p prev with hqdef
    have hq : ¬ q.max_hp = 0 := by
      rw [hqdef, updateWoundThresholds_max_hp]; exact hmax
    have hr : hpFraction q = hpFraction p := by
      rw [hqdef]; unfold hpFraction
      rw [updateWoundThresholds_current_hp, updateWoundThresholds_max_hp]
    show updateWoundThresholds q prev' = q
    unfold updateWoundThresholds
    rw [if_neg hq, hr]
    apply foldWound_id
    intro e he
    have hchar : e.threshold ∈ q.active_wound_thresholds ↔
        (hpFraction p ≤ e.threshold ∨
          (e.threshold ∈ p.active_wound_thresholds ∧
            ¬ e.threshold + 5/100 < hpFraction p)) := by
      rw [hqdef]; unfold updateWoundThresholds; rw [if_neg hmax]
      exact foldWound_mem_char _ _ _ _ wound_table_nodup he
    constructor
    · intro hle; exact hchar.mpr (Or.inl hle)
    · intro hm hlt
      rcases hchar.mp hm with hle | ⟨_, hnlt⟩
      · linarith
      · exact hnlt hlt

/-! ### Sample states used by witnesses and counterexamples -/

def zeroHpPlayer : Player := { initPlayer with current_hp := 0 }

def woundedPlayer : Player := { initPlayer with current_hp := 20 }

/-! ### Claim C7 -/

/-- C7: for every player state, whatever wound-modifier deltas have
accumulated, `effective_strength() ≥ 1` and `effective_dexterity() ≥ 1`. -/
theorem effective_attributes_at_least_one (p : Player) :
    1 ≤ effective_strength p ∧ 1 ≤ effective_dexterity p :=
  ⟨le_max_left _ _, le_max_left _ _⟩

/-! ### Claim C2 -/

/-- C2 counterexample: at `current_hp = 0` (which the claim's range
`[0, max_hp]` includes) a positive raw amount does not reduce
`current_hp` by at least 1 — the HP stays clamped at 0. -/
theorem take_damage_at_zero_hp_counterexample :
    (0:Int) < 5 ∧ 0 ≤ zeroHpPlayer.current_hp ∧
    zeroHpPlayer.current_hp ≤ zeroHpPlayer.max_hp ∧
    (take_damage zeroHpPlayer 5 0).1.current_hp = 0 ∧
    ¬ (take_damage zeroHpPlayer 5 0).1.current_hp ≤ zeroHpPlayer.current_hp - 1 := by
  rw [take_damage_current_hp]
  decide

/-- C2 (amended): for every call of `take_damage` with raw amount > 0 on
a player with `current_hp ∈ [1, max_hp]`, the call reduces `current_hp`
by at least 1 and never below 0.  (At `current_hp = 0` the HP merely
stays clamped at 0, per the counterexample.) -/
theorem take_damage_reduces_hp (p : Player) (amount armor_bonus : Int)
    (hamt : 0 < amount) (hhp : 1 ≤ p.current_hp) :
    (take_damage p amount armor_bonus).1.current_hp ≤ p.current_hp - 1 ∧
    0 ≤ (take_damage p amount armor_bonus).1.current_hp := by
  rw [take_damage_current_hp]
  omega

/-- Witness for C2: the freshly constructed player at 32/32 HP. -/
theorem take_damage_reduces_hp_witness :
    (0:Int) < 5 ∧ 1 ≤ initPlayer.current_hp ∧
    ((take_damage initPlayer 5 0).1.current_hp ≤ initPlayer.current_hp - 1 ∧
      0 ≤ (take_damage initPlayer 5 0).1.current_hp) :=
  ⟨by decide, by decide, take_damage_reduces_hp initPlayer 5 0 (by decide) (by decide)⟩

/-! ### Claim C6 -/

/-- C6: one pass of `_update_wound_thresholds` is hysteretic and
idempotent.  For each threshold row: after the pass the row is active
iff the HP ratio is at/below the threshold, or it was active before and
the ratio has not risen strictly above `threshold + 0.05` (so repeated
crossings below without such a recovery change nothing); the attribute
deltas change by exactly the sum of one application per newly activated
row and one reversal per newly deactivated row; and running the pass
again without an HP change is the identity. -/
theorem wound_threshold_update_hysteretic_idempotent
    (p : Player) (prev prev' : ℚ) (e : WoundEntry)
    (hmax : p.max_hp ≠ 0) (he : e ∈ WOUND_THRESHOLDS) :
    (e.threshold ∈ (updateWoundThresholds p prev).active_wound_thresholds ↔
      (hpFraction p ≤ e.threshold ∨
        (e.threshold ∈ p.active_wound_thresholds ∧
          ¬ e.threshold + 5/100 < hpFraction p))) ∧
    (updateWoundThresholds p prev).wound_strength =
      p.wound_strength + (WOUND_THRESHOLDS.map fun x =>
        woundContrib (hpFraction p) (decide (x.threshold ∈ p.active_wound_thresholds))
          x.strength_mod x).sum ∧
    (updateWoundThresholds p prev).wound_dexterity =
      p.wound_dexterity + (WOUND_THRESHOLDS.map fun x =>
        woundContrib (hpFraction p) (decide (x.threshold ∈ p.active_wound_thresholds))
          x.dexterity_mod x).sum ∧
    updateWoundThresholds (updateWoundThresholds p prev) prev' =
      updateWoundThresholds p prev := by
  have hupd : updateWoundThresholds p prev =
      WOUND_THRESHOLDS.foldl (woundStep (hpFraction p)) p := by
    unfold updateWoundThresholds; rw [if_neg hmax]
  refine ⟨?_, ?_, ?_, updateWoundThresholds_idem p prev prev'⟩
  · rw [hupd]; exact foldWound_mem_char _ _ _ _ wound_table_nodup he
  · rw [hupd]; exact foldWound_wound_strength _ _ _ wound_table_nodup
  · rw [hupd]; exact foldWound_wound_dexterity _ _ _ wound_table_nodup

/-- Witness for C6: the fresh player at 20/32 HP and the 0.75 row. -/
theorem wound_threshold_update_hysteretic_idempotent_witness :
    woundedPlayer.max_hp ≠ 0 ∧
    (⟨75/100, -1, 0, "Bruises bloom across your arms."⟩ : WoundEntry) ∈ WOUND_THRESHOLDS ∧
    ((WoundEntry.threshold ⟨75/100, -1, 0, "Bruises bloom across your arms."⟩ ∈
        (updateWoundThresholds woundedPlayer 1).active_wound_thresholds ↔
      (hpFraction woundedPlayer ≤
          WoundEntry.threshold ⟨75/100, -1, 0, "Bruises bloom across your arms."⟩ ∨
        (WoundEntry.threshold ⟨75/100, -1, 0, "Bruises bloom across your arms."⟩ ∈
            woundedPlayer.active_wound_thresholds ∧
          ¬ WoundEntry.threshold ⟨75/100, -1, 0, "Bruises bloom across your arms."⟩ + 5/100 <
              hpFraction woundedPlayer))) ∧
    (updateWoundThresholds woundedPlayer 1).wound_strength =
      woundedPlayer.wound_strength + (WOUND_THRESHOLDS.map fun x =>
        woundContrib (hpFraction woundedPlayer)
          (decide (x.threshold ∈ woundedPlayer.active_wound_thresholds))
          x.strength_mod x).sum ∧
    (updateWoundThresholds woundedPlayer 1).wound_dexterity =
      woundedPlayer.wound_dexterity + (WOUND_THRESHOLDS.map fun x =>
        woundContrib (hpFraction woundedPlayer)
          (decide (x.threshold ∈ woundedPlayer.active_wound_thresholds))
          x.dexterity_mod x).sum ∧
    updateWoundThresholds (updateWoundThresholds woundedPlayer 1) 1 =
      updateWoundThresholds woundedPlayer 1) :=
  ⟨by decide, by simp [WOUND_THRESHOLDS],
    wound_threshold_update_hysteretic_idempotent woundedPlayer 1 1 _
      (by decide) (by simp [WOUND_THRESHOLDS])⟩

/-! ### NPC combat profiles (npcs.py) -/

structure CombatProfile where
  hp : Int
  weapon_id : String
  weapon_skill : List (String × Int)
  preferred_stances : List String
  aggression : Int
  awareness : Int
deriving DecidableEq

/-- NPC record, restricted to the fields the combat core reads
(dialogue, room and quest fields are outside the combat scope). -/
structure NPC where
  id : String
  name : String
  combat_profile : Option CombatProfile
deriving DecidableEq

/-! ### The duel engine (duel.py) -/

/-- The FISTS fallback weapon from duel.py. -/
def FISTS : Weapon :=
  ⟨"fists", "your fists", "Bare-knuckled determination.", 1, 2, "fists"⟩

/-- Duel session state (`Duel.__init__` fields).  `player.active_duel`
is a back-pointer used only for UI interrupts and is omitted. -/
structure Duel where
  player : Player
  opponent : NPC
  profile : CombatProfile
  enemy_hp : Int
  enemy_max_hp : Int
  enemy_stance : String
  enemy_weapon : Weapon
  enemy_strength : Int
  enemy_dexterity : Int
  active : Bool
  round : Int
  forced_yield : Bool
  sparring : Bool
  player_hp_snapshot : Int
  xp_multiplier : Int
deriving DecidableEq

/-- `Duel.__init__`: a missing combat profile is a fatal precondition
failure (`raise ValueError`) hit before any session field is assigned;
otherwise the session state is built.  `_load_weapon` resolves the
profile's weapon id against externally loaded content, so it is passed
in as a function. -/
def duelInit (loadWeapon : String → Weapon) (player : Player) (opponent : NPC)
    (sparring : Bool) : Except String Duel :=
  match opponent.combat_profile with
  | none => .error "Opponent lacks a combat profile."
  | some profile =>
      .ok { player := player
            opponent := opponent
            profile := profile
            enemy_hp := profile.hp
            enemy_max_hp := profile.hp
            enemy_stance := profile.preferred_stances.headD "balanced"
            enemy_weapon := loadWeapon profile.weapon_id
            enemy_strength := 6 + pyDiv profile.aggression 10
            enemy_dexterity := 5 + pyDiv profile.awareness 10
            active := true
            round := 1
            forced_yield := false
            sparring := sparring
            player_hp_snapshot := player.current_hp
            xp_multiplier := if sparring then 2 else 1 }

/-- `_player_weapon`: equipped weapon or fists, with its type. -/
def playerWeapon (p : Player) : Weapon × String :=
  let weapon := p.equipped_weapon.getD FISTS
  (weapon, weapon.weapon_type)

/-- `weapon_skill.get(weapon_type, weapon_skill["fists"])` (the fists
key is present from construction on). -/
def weaponSkillOrFists (p : Player) (weapon_type : String) : Int :=
  (lookupSkill p.weapon_skill weapon_type).getD
    ((lookupSkill p.weapon_skill "fists").getD 0)

/-- `_enemy_dodge_rating`. -/
def enemyDodgeRating (s : Duel) (enemy_effect : ActionEffect) : Int :=
  let stance_bonus := (stanceGetD s.enemy_stance).dodge
  s.enemy_dexterity * 2 + pyDiv s.profile.awareness 2 + stance_bonus + enemy_effect.dodge

/-- The player's hit score in `_player_offense`. -/
def duelPlayerHitScore (s : Duel) (player_effect : ActionEffect) : Int :=
  weaponSkillOrFists s.player (playerWeapon s.player).2 * 5 +
    effective_strength s.player + (stanceProfile s.player.stance).hit +
    player_effect.hit

/-- The enemy's hit score in `_enemy_offense` (`getattr(..., "spear")`
never fires since the weapon record always carries its type). -/
def duelEnemyHitScore (s : Duel) (enemy_effect : ActionEffect) : Int :=
  (lookupSkill s.profile.weapon_skill s.enemy_weapon.weapon_type).getD 25 * 5 +
    s.enemy_strength + (stanceGetD s.enemy_stance).hit + enemy_effect.hit

/-- The player's defense score in `_enemy_offense`:
`calculate_dodge_rating() + player_effect["dodge"]`. -/
def duelPlayerDodge (s : Duel) (player_effect : ActionEffect) : Int :=
  (recalcDodge s.player).dodge_rating + player_effect.dodge

/-- `_calculate_player_damage`; `base` is the damage-die oracle. -/
def calculatePlayerDamage (s : Duel) (player_effect : ActionEffect)
    (stance_profile : StanceProfile) (base : Int) : Int :=
  let strength_bonus := effective_strength s.player
  let damage : ℚ := ((base + max 1 (pyDiv strength_bonus 2) : Int) : ℚ) * player_effect.damage
  let damage := damage * stance_profile.damage
  let damage := if s.sparring then max 1 ((⌊damage / 2⌋ : Int) : ℚ) else damage
  max 1 (pyTrunc damage)

/-- `_calculate_enemy_damage`; `base` is the damage-die oracle. -/
def calculateEnemyDamage (s : Duel) (enemy_effect : ActionEffect)
    (stance_profile : StanceProfile) (base : Int) : Int :=
  let strength_bonus := pyDiv s.enemy_strength 2
  let damage : ℚ := ((base + max 1 strength_bonus : Int) : ℚ) * enemy_effect.damage
  let damage := damage * stance_profile.damage
  let damage := if s.sparring then max 1 ((⌊damage / 2⌋ : Int) : ℚ) else damage
  max 1 (pyTrunc damage)

/-- The sparring early-stop at the end of `_player_offense`. -/
def duelSparCheck (s : Duel) : Duel :=
  if s.sparring ∧ s.enemy_hp ≤ max 1 (pyDiv s.enemy_max_hp 5) then
    { s with enemy_hp := max 1 s.enemy_hp, active := false }
  else s

/-- `_player_offense`; `roll` and `base` are the hit-roll and damage
oracles.  The returned flag records which branch resolved (the hit
narration versus the miss narration). -/
def playerOffense (s : Duel) (player_action : String)
    (player_effect enemy_effect : ActionEffect) (roll base : Int) : Duel × Bool :=
  if roll ≤ max 15 (duelPlayerHitScore s player_effect - enemyDodgeRating s enemy_effect) then
    let damage := calculatePlayerDamage s player_effect (stanceProfile s.player.stance) base
    let s1 := { s with
      enemy_hp := max 0 (s.enemy_hp - damage),
      player := gain_weapon_xp s.player (playerWeapon s.player).2 (2 * s.xp_multiplier) }
    (duelSparCheck s1, true)
  else
    let s1 := { s with
      player := gain_weapon_xp s.player (playerWeapon s.player).2 (1 * s.xp_multiplier) }
    (duelSparCheck s1, false)

/-- `_enemy_offense`; `roll` and `base` are the hit-roll and damage
oracles.  The player's dodge rating is recomputed (with its cache
effect) before the roll, exactly as in the source. -/
def enemyOffense (s : Duel) (enemy_action : String)
    (enemy_effect player_effect : ActionEffect) (roll base : Int) : Duel × Bool :=
  let pl := recalcDodge s.player
  if roll ≤ max 12 (duelEnemyHitScore s enemy_effect - duelPlayerDodge s player_effect) then
    let damage := calculateEnemyDamage s enemy_effect (stanceGetD s.enemy_stance) base
    let pl2 := (take_damage pl damage player_effect.armor).1
    let pl3 := if s.sparring then { pl2 with current_hp := max 1 pl2.current_hp } else pl2
    ({ s with player := pl3 }, true)
  else
    ({ s with player := gain_dodge_xp pl (1 * s.xp_multiplier) }, false)

/-- Parsed form of the dict returned by `_prompt_player_action`. -/
structure PlayerChoice where
  action : String
  stance : Option String
deriving DecidableEq

/-- Python `str.split()` on the space-separated inputs used here. -/
def pySplit (s : String) : List String :=
  (s.splitOn " ").filter (fun t => t ≠ "")

/-- `_prompt_player_action` applied to one input line (modelled as
already `.strip().lower()`-normalized). -/
def parsePlayerAction (raw : String) : PlayerChoice :=
  let choice := raw
  if choice = "" then ⟨"strike", none⟩
  else if choice = "yield" then ⟨"yield", none⟩
  else if choice.startsWith "stance" then
    let parts := pySplit choice
    if 2 ≤ parts.length then ⟨"stance", some (parts.getD 1 "")⟩
    else ⟨"stance", some "balanced"⟩
  else if (actionModifiers choice).isSome then ⟨choice, none⟩
  else ⟨"strike", none⟩

/-- `_normalize_player_action`: a stance choice switches the player's
stance and is then resolved as a `"block"` attack. -/
def normalizePlayerAction (s : Duel) (choice : PlayerChoice) : Duel × String :=
  if choice.action = "stance" then
    ({ s with player := change_stance s.player (choice.stance.getD "balanced") }, "block")
  else (s, choice.action)

inductive Actor
  | player
  | enemy
deriving DecidableEq, Repr

/-- Initiative ordering in `_resolve_round` (lines 132-138): each side
rolls d20 plus effective dexterity, +2 when dodging; the player acts
first unless the enemy's total is strictly greater. -/
def duelOrder (s : Duel) (player_action enemy_action : String)
    (pRoll eRoll : Int) : List Actor :=
  let player_initiative :=
    pRoll + effective_dexterity s.player + (if player_action = "dodge" then 2 else 0)
  let enemy_initiative :=
    eRoll + s.enemy_dexterity + (if enemy_action = "dodge" then 2 else 0)
  if enemy_initiative ≤ player_initiative then [.player, .enemy] else [.enemy, .player]

/-! ### Oracle streams for the turn loops -/

def drawOracle : List Int → Int × List Int
  | [] => (0, [])
  | x :: xs => (x, xs)

def drawRandint (a b : Int) (rnd : List Int) : Int × List Int :=
  let (x, rnd') := drawOracle rnd
  (randint a b x, rnd')

/-- Oracle model of `random.choice`: pick by index.  The default for an
empty list is never exercised at the call sites (the source would raise
there). -/
def pyChoice (l : List String) (i : Int) : String :=
  l.getD (i.toNat % l.length) "balanced"

def drawAct : List String → String × List String
  | [] => ("", [])
  | a :: rest => (a, rest)

/-- `_choose_enemy_action`. -/
def chooseEnemyAction (s : Duel) (rnd : List Int) : String × List Int :=
  let hpr : ℚ := if s.enemy_max_hp = 0 then 1 else (s.enemy_hp : ℚ) / (s.enemy_max_hp : ℚ)
  if hpr < 1/5 then ("dodge", rnd)
  else
    let (roll, rnd) := drawRandint 1 100 rnd
    let aggression := if s.sparring then pyDiv s.profile.aggression 2 else s.profile.aggression
    if roll ≤ aggression then ("strike", rnd)
    else if roll ≤ aggression + 15 then ("feint", rnd)
    else if hpr < 1/2 ∧ roll % 2 = 0 then ("dodge", rnd)
    else
      let (i, rnd) := drawOracle rnd
      (pyChoice ["strike", "block", "feint"] i, rnd)

/-- `_maybe_adjust_enemy_stance`. -/
def maybeAdjustEnemyStance (s : Duel) (rnd : List Int) : Duel × List Int :=
  let hpr : ℚ := if s.enemy_max_hp = 0 then 1 else (s.enemy_hp : ℚ) / (s.enemy_max_hp : ℚ)
  let picked :=
    if hpr < 3/10 ∧ "defensive" ∈ s.profile.preferred_stances then ("defensive", rnd)
    else if 7/10 < hpr ∧ "aggressive" ∈ s.profile.preferred_stances then ("aggressive", rnd)
    else
      let (i, rnd') := drawOracle rnd
      (pyChoice (if s.profile.preferred_stances.isEmpty then ["balanced"]
                 else s.profile.preferred_stances) i, rnd')
  if picked.1 ≠ s.enemy_stance then ({ s with enemy_stance := picked.1 }, picked.2)
  else (s, picked.2)

/-- One actor's offense inside the `_resolve_round` loop, including the
kill check that deactivates the duel.  The damage-die oracle is pulled
from the stream unconditionally even though the source only calls
`randint` on a hit; since the stream is an arbitrary oracle, the set of
reachable outcomes is unchanged. -/
def duelActorTurn (s : Duel) (a : Actor) (player_action enemy_action : String)
    (player_effect enemy_effect : ActionEffect) (rnd : List Int) : Duel × List Int :=
  match a with
  | .player =>
      let (roll, rnd) := drawRandint 1 100 rnd
      let weapon := (playerWeapon s.player).1
      let (base, rnd) := drawRandint weapon.damage_min weapon.damage_max rnd
      let s := (playerOffense s player_action player_effect enemy_effect roll base).1
      (if s.enemy_hp ≤ 0 then { s with active := false } else s, rnd)
  | .enemy =>
      let (roll, rnd) := drawRandint 1 100 rnd
      let (base, rnd) := drawRandint s.enemy_weapon.damage_min s.enemy_weapon.damage_max rnd
      let s := (enemyOffense s enemy_action enemy_effect player_effect roll base).1
      (if s.player.current_hp ≤ 0 then { s with active := false } else s, rnd)

/-- The `for actor in order` loop of `_resolve_round` (an inactive duel
breaks out before the next actor moves). -/
def duelRunOrder (s : Duel) (order : List Actor) (player_action enemy_action : String)
    (player_effect enemy_effect : ActionEffect) (rnd : List Int) : Duel × List Int :=
  match order with
  | [] => (s, rnd)
  | a :: rest =>
      if s.active then
        let (s', rnd') := duelActorTurn s a player_action enemy_action player_effect enemy_effect rnd
        duelRunOrder s' rest player_action enemy_action player_effect enemy_effect rnd'
      else (s, rnd)

/-- `_resolve_round`. -/
def resolveRound (s : Duel) (choice : PlayerChoice) (enemy_action : String)
    (rnd : List Int) : Duel × List Int :=
  let norm := normalizePlayerAction s choice
  let s := norm.1
  let player_action := norm.2
  let player_effect := (actionModifiers player_action).getD strikeEffect
  let enemy_effect := (actionModifiers enemy_action).getD strikeEffect
  let (pRoll, rnd) := drawRandint 1 20 rnd
  let (eRoll, rnd) := drawRandint 1 20 rnd
  let order := duelOrder s player_action enemy_action pRoll eRoll
  let s := if player_action = "dodge" then { s with player := gain_dodge_xp s.player 1 } else s
  duelRunOrder s order player_action enemy_action player_effect enemy_effect rnd

/-- `_player_yield` (narration aside, it deactivates the duel). -/
def duelPlayerYield (s : Duel) : Duel := { s with active := false }

/-- The `while` loop of `Duel.run`, driven by a script of raw input
lines and an oracle stream, with fuel for termination. -/
def duelLoop : Nat → List String → List Int → Duel → Duel
  | 0, _, _, s => s
  | fuel+1, acts, rnd, s =>
      if s.active ∧ 0 < s.player.current_hp ∧ 0 < s.enemy_hp then
        let pulled := drawAct acts
        let choice := parsePlayerAction pulled.1
        if choice.action = "yield" then duelPlayerYield s
        else
          let chosen := chooseEnemyAction s rnd
          let adjusted := maybeAdjustEnemyStance s chosen.2
          let resolved := resolveRound adjusted.1 choice chosen.1 adjusted.2
          duelLoop fuel pulled.2 resolved.2 { resolved.1 with round := resolved.1.round + 1 }
      else s

/-- `_summarize_outcome`: the only state effect is the fists XP granted
on victory. -/
def duelSummarize (s : Duel) : Duel :=
  if s.player.current_hp ≤ 0 then s
  else if s.enemy_hp ≤ 0 then
    { s with player := gain_weapon_xp s.player "fists" (1 * s.xp_multiplier) }
  else s

/-- `Duel.run`: dodge-rating refresh, the round loop, the `finally`
block (deactivation and the sparring HP restore), then the outcome
summary. -/
def duelRun (fuel : Nat) (acts : List String) (rnd : List Int) (s : Duel) : Duel :=
  let s := { s with player := recalcDodge s.player }
  let s := duelLoop fuel acts rnd s
  let s := { s with active := false }
  let s := if s.sparring then
      { s with player :=
          recalcDodge { s.player with current_hp := min s.player.max_hp s.player_hp_snapshot } }
    else s
  duelSummarize s

/-! ### The arena engine (arena_engine.py, arena_rewards.py) -/

structure ArenaOpponent where
  name : String
  hp : Int
  weapon_type : String
  damage_min : Int
  damage_max : Int
  aggression : Int
  awareness : Int
  preferred_stances : List String
deriving DecidableEq

/-- The rank-tiered roster ARENA_OPPONENTS (unknown ranks would raise a
`KeyError` in the source and are mapped to the empty roster). -/
def ARENA_OPPONENTS (rank : String) : List ArenaOpponent :=
  if rank = "bronze" then
    [⟨"Arena Brawler", 18, "fists", 1, 4, 40, 30, ["aggressive", "balanced"]⟩,
     ⟨"Spear Novice", 20, "spear", 1, 5, 35, 35, ["balanced"]⟩]
  else if rank = "silver" then
    [⟨"Shieldbearer Vex", 28, "spear", 2, 5, 45, 40, ["defensive", "balanced"]⟩,
     ⟨"Parshendi Duelist", 30, "sword", 2, 6, 50, 45, ["aggressive", "balanced"]⟩]
  else if rank = "gold" then
    [⟨"Veteran Blademaster", 36, "sword", 3, 7, 55, 50, ["balanced", "aggressive"]⟩,
     ⟨"Chasmfiend Youngling", 42, "fists", 4, 8, 60, 30, ["aggressive"]⟩]
  else if rank = "champion" then
    [⟨"The Unbroken Line", 50, "spear", 4, 9, 65, 55, ["balanced", "defensive"]⟩]
  else []

/-- Arena session state (`ArenaMatch.__init__` fields). -/
structure Arena where
  player : Player
  rank : String
  opponent : ArenaOpponent
  enemy_hp : Int
  player_fatigue : Int
  enemy_fatigue : Int
  player_morale : Int
  enemy_morale : Int
  crowd_favor : Int
  round : Int
  active : Bool
  player_yield : Bool
deriving DecidableEq

/-- `ArenaMatch.__init__`; the opponent is `random.choice` from the
rank's roster, resolved here by the caller's oracle. -/
def arenaInit (player : Player) (rank : String) (opponent : ArenaOpponent) : Arena :=
  { player := player, rank := rank, opponent := opponent, enemy_hp := opponent.hp,
    player_fatigue := 10, enemy_fatigue := 10, player_morale := 50, enemy_morale := 50,
    crowd_favor := 50, round := 1, active := true, player_yield := false }

/-- The arena's inline fists fallback (damage 1-3, unlike the duel's). -/
def ARENA_FISTS : Weapon := ⟨"fists", "your fists", "Bare knuckles", 1, 3, "fists"⟩

def arenaPlayerWeapon (p : Player) : Weapon := p.equipped_weapon.getD ARENA_FISTS

/-- `_prompt_action` applied to one input line (modelled as already
`.strip().lower()`-normalized); a stance input with an argument
switches the player's stance as a side effect. -/
def arenaPromptAction (s : Arena) (raw : String) : Arena × String :=
  let choice := raw
  if choice = "" then (s, "strike")
  else if choice.startsWith "stance" then
    let parts := pySplit choice
    if 2 ≤ parts.length then
      ({ s with player := change_stance s.player (parts.getD 1 "") }, "stance")
    else (s, "stance")
  else if choice = "strike" ∨ choice = "feint" ∨ choice = "block" ∨
          choice = "dodge" ∨ choice = "yield" then (s, choice)
  else (s, "strike")

/-- `_enemy_action`. -/
def arenaEnemyAction (s : Arena) (rnd : List Int) : String × List Int :=
  let hpr : ℚ := (s.enemy_hp : ℚ) / (s.opponent.hp : ℚ)
  let fatigue_penalty := pyDiv s.enemy_fatigue 20
  let aggression := max 10 (s.opponent.aggression - fatigue_penalty * 5)
  if hpr < 1/5 then ("dodge", rnd)
  else
    let (roll, rnd) := drawRandint 1 100 rnd
    if roll ≤ aggression then ("strike", rnd)
    else if roll ≤ aggression + 15 then ("feint", rnd)
    else if roll % 3 = 0 then ("block", rnd)
    else ("dodge", rnd)

/-- The player's hit score in `_player_attack`. -/
def arenaPlayerHitScore (s : Arena) : Int :=
  let weapon_type := (arenaPlayerWeapon s.player).weapon_type
  let weapon_skill := (lookupSkill s.player.weapon_skill weapon_type).getD 5
  weapon_skill * 5 + effective_strength s.player +
    (stanceProfile s.player.stance).hit - pyDiv s.player_fatigue 15

/-- The enemy's defense score in `_player_attack`. -/
def arenaEnemyDodge (s : Arena) : Int :=
  s.opponent.awareness * 2 + pyDiv s.enemy_fatigue 10

/-- `_player_attack`; `roll` and `base` are the hit-roll and damage-die
oracles.  The flag is `none` for the stance no-op, otherwise whether
the attack landed. -/
def arenaPlayerAttack (s : Arena) (action enemy_action : String)
    (roll base : Int) : Arena × Option Bool :=
  if action = "stance" then
    ({ s with crowd_favor := min 100 (s.crowd_favor + 2) }, none)
  else
    let weapon_type := (arenaPlayerWeapon s.player).weapon_type
    let stance_profile := stanceProfile s.player.stance
    if roll ≤ max 10 (arenaPlayerHitScore s - arenaEnemyDodge s) then
      let dmg := pyTrunc
        (((base + pyDiv (effective_strength s.player) 2 : Int) : ℚ) * stance_profile.damage)
      let feint := if action = "feint" then (max 1 (dmg - 1), min 100 (s.crowd_favor + 5))
        else (dmg, s.crowd_favor)
      let dmg2 := if action = "block" then max 1 (feint.1 - 2) else feint.1
      let s1 := { s with
        crowd_favor := feint.2,
        enemy_hp := max 0 (s.enemy_hp - dmg2),
        player := gain_weapon_xp s.player weapon_type 2,
        player_morale := min 100 (s.player_morale + 5),
        enemy_morale := max 0 (s.enemy_morale - 5) }
      ({ s1 with player_fatigue := min 100 (s1.player_fatigue + 7) }, some true)
    else
      let s1 := { s with
        player := gain_weapon_xp s.player weapon_type 1,
        crowd_favor := max 0 (s.crowd_favor - 3) }
      ({ s1 with player_fatigue := min 100 (s1.player_fatigue + 7) }, some false)

/-- The enemy's hit score in `_enemy_attack`, for the stance profile
drawn this exchange. -/
def arenaEnemyHitScore (s : Arena) (stance_profile : StanceProfile) : Int :=
  s.opponent.aggression * 2 + stance_profile.hit - pyDiv s.enemy_fatigue 15 +
    pyDiv s.enemy_morale 10

/-- The player's defense score in `_enemy_attack` (dodge rating, minus
5 when blocking). -/
def arenaPlayerDodge (s : Arena) (player_action : String) : Int :=
  let pd := dodgeRatingVal s.player
  if player_action = "block" then pd - 5 else pd

/-- `_enemy_attack`; `stanceIdx`, `roll` and `base` are the oracles for
the stance choice, hit roll and damage die.  The flag is `none` for the
block no-op, otherwise whether the attack landed.  The player's dodge
rating is recomputed (cache effect) before the roll, as in the source. -/
def arenaEnemyAttack (s : Arena) (action player_action : String)
    (stanceIdx roll base : Int) : Arena × Option Bool :=
  if action = "block" then
    ({ s with enemy_fatigue := min 100 (s.enemy_fatigue + 3) }, none)
  else
    let stance_profile := stanceGetD (pyChoice s.opponent.preferred_stances stanceIdx)
    let pl := recalcDodge s.player
    if roll ≤ max 12 (arenaEnemyHitScore s stance_profile - arenaPlayerDodge s player_action) then
      let dmg := pyTrunc
        (((base + pyDiv s.opponent.aggression 15 : Int) : ℚ) * stance_profile.damage)
      let dmg := if action = "feint" then max 1 (dmg - 1) else dmg
      let s1 := { s with
        player := (take_damage pl dmg 0).1,
        crowd_favor := max 0 (s.crowd_favor - 5),
        enemy_morale := min 100 (s.enemy_morale + 4),
        player_morale := max 0 (s.player_morale - 6) }
      ({ s1 with enemy_fatigue := min 100 (s1.enemy_fatigue + 8) }, some true)
    else
      ({ s with player := pl, enemy_fatigue := min 100 (s.enemy_fatigue + 8) }, some false)

/-- `_decay_states`: morale decays by 1 toward 0 on each side and the
crowd takes a bounded random step; fatigue is untouched. -/
def arenaDecayStates (s : Arena) (crowdDraw : Int) : Arena :=
  { s with
    player_morale := max 0 (s.player_morale - 1),
    enemy_morale := max 0 (s.enemy_morale - 1),
    crowd_favor := max 0 (min 100 (s.crowd_favor + randint (-2) 2 crowdDraw)) }

/-- One actor's move inside `_resolve_actions` (as in the duel, the
damage-die oracle is pulled unconditionally; the reachable outcomes are
unchanged). -/
def arenaActorTurn (s : Arena) (a : Actor) (player_action enemy_action : String)
    (rnd : List Int) : Arena × List Int :=
  match a with
  | .player =>
      let weapon := arenaPlayerWeapon s.player
      let (roll, rnd) := drawRandint 1 100 rnd
      let (base, rnd) := drawRandint weapon.damage_min weapon.damage_max rnd
      ((arenaPlayerAttack s player_action enemy_action roll base).1, rnd)
  | .enemy =>
      let (i, rnd) := drawOracle rnd
      let (roll, rnd) := drawRandint 1 100 rnd
      let (base, rnd) := drawRandint s.opponent.damage_min s.opponent.damage_max rnd
      ((arenaEnemyAttack s enemy_action player_action i roll base).1, rnd)

/-- The `for actor in order` loop of `_resolve_actions`. -/
def arenaRunOrder (s : Arena) (order : List Actor) (player_action enemy_action : String)
    (rnd : List Int) : Arena × List Int :=
  match order with
  | [] => (s, rnd)
  | a :: rest =>
      if s.active then
        let (s', rnd') := arenaActorTurn s a player_action enemy_action rnd
        arenaRunOrder s' rest player_action enemy_action rnd'
      else (s, rnd)

/-- `_resolve_actions`. -/
def arenaResolveActions (s : Arena) (player_action enemy_action : String)
    (rnd : List Int) : Arena × List Int :=
  let (coin, rnd) := drawRandint 0 1 rnd
  let order : List Actor := if coin ≠ 0 then [.enemy, .player] else [.player, .enemy]
  let s := if player_action = "dodge" then { s with player := gain_dodge_xp s.player 1 } else s
  let (s, rnd) := arenaRunOrder s order player_action enemy_action rnd
  (if s.enemy_hp ≤ 0 ∨ s.player.current_hp ≤ 0 then { s with active := false } else s, rnd)

/-! #### Rewards (arena_rewards.py) -/

def FAME_REWARDS : List (String × Int) :=
  [("bronze", 4), ("silver", 6), ("gold", 10), ("champion", 20)]

def MARK_REWARD_RANGE : List (String × (Int × Int)) :=
  [("bronze", (2, 4)), ("silver", (4, 7)), ("gold", (8, 12)), ("champion", (15, 25))]

def ITEM_REWARD_POOL : List (String × List (String × String)) :=
  [("bronze", [("leather_kit", "Leather Armor Kit")]),
   ("silver", [("reinforced_spear", "Reinforced Practice Spear"),
               ("chipped_sapphire", "Chipped Sapphire")]),
   ("gold", [("balanced_halberd", "Balanced Halberd"),
             ("chipped_ruby", "Chipped Ruby")]),
   ("champion", [("honor_blade_replica", "Honor Guard Spear"),
                 ("chipped_topaz", "Chipped Topaz")])]

def lookupAssoc {α : Type} : List (String × α) → String → Option α
  | [], _ => none
  | (k', v') :: rest, k => if k' = k then some v' else lookupAssoc rest k

/-- `fame_reward(rank)`. -/
def fame_reward (rank : String) : Int := (lookupAssoc FAME_REWARDS rank).getD 0

/-- `roll_mark_reward(rank)`; `x` is the randint oracle. -/
def roll_mark_reward (rank : String) (x : Int) : Int :=
  let range := (lookupAssoc MARK_REWARD_RANGE rank).getD (1, 2)
  randint range.1 range.2 x

/-- `maybe_roll_item(rank)`; `r` models the `random.random()` unit draw
and `i` the pool choice. -/
def maybe_roll_item (rank : String) (r : ℚ) (i : Int) : Option Item :=
  let pool := (lookupAssoc ITEM_REWARD_POOL rank).getD []
  if pool.isEmpty then none
  else
    let chance : ℚ := if rank ≠ "champion" then 25/100 else 50/100
    if chance < r then none
    else
      let pick := pool.getD (i.toNat % pool.length) ("", "")
      some ⟨pick.1, pick.2⟩

/-- Unit-interval oracle draw for `random.random()`, with two-decimal
granularity (every outcome of the comparisons against 0.25/0.5 is
reachable). -/
def drawUnit (rnd : List Int) : ℚ × List Int :=
  let (x, rnd') := drawOracle rnd
  ((((x.emod 100 : Int) : ℚ)) / 100, rnd')

/-- The outcome record returned by `ArenaMatch.run`. -/
structure ArenaResult where
  victory : Bool
  message : String
  fame : Int
  marks : Int
  item : Option Item
deriving DecidableEq

/-- The post-loop payout computation at the end of `ArenaMatch.run`. -/
def arenaFinish (s : Arena) (rnd : List Int) : ArenaResult :=
  let victory := decide (s.enemy_hp ≤ 0) && decide (0 < s.player.current_hp) && !s.player_yield
  let message := if victory then "The crowd erupts in cheers."
    else "Gasps ripple through the stands."
  let marksDraw := (drawOracle rnd).1
  let rnd2 := (drawOracle rnd).2
  let r := (drawUnit rnd2).1
  let rnd3 := (drawUnit rnd2).2
  let i := (drawOracle rnd3).1
  { victory := victory, message := message,
    fame := if victory then fame_reward s.rank else 0,
    marks := if victory then roll_mark_reward s.rank marksDraw else 0,
    item := if victory then maybe_roll_item s.rank r i else none }

/-- The `while` loop of `ArenaMatch.run`. -/
def arenaLoop : Nat → List String → List Int → Arena → Arena × List Int
  | 0, _, rnd, s => (s, rnd)
  | fuel+1, acts, rnd, s =>
      if s.active ∧ 0 < s.player.current_hp ∧ 0 < s.enemy_hp then
        let pulled := drawAct acts
        let prompted := arenaPromptAction s pulled.1
        if prompted.2 = "yield" then ({ prompted.1 with player_yield := true }, rnd)
        else
          let chosen := arenaEnemyAction prompted.1 rnd
          let resolved := arenaResolveActions prompted.1 prompted.2 chosen.1 chosen.2
          let crowd := drawOracle resolved.2
          let s2 := arenaDecayStates resolved.1 crowd.1
          arenaLoop fuel pulled.2 crowd.2 { s2 with round := s2.round + 1 }
      else (s, rnd)

/-- `ArenaMatch.run`: the round loop followed by the payout. -/
def arenaRun (fuel : Nat) (acts : List String) (rnd : List Int) (s : Arena) :
    ArenaResult × Arena :=
  let looped := arenaLoop fuel acts rnd s
  (arenaFinish looped.1 looped.2, looped.1)

/-! ### The plain attack (player.py, `Player.attack`), combat math only.

Target search, room bookkeeping and quest processing are outside the
combat scope; `base` and `retaliation` are the two damage-die oracles
(`randint(damage_min, damage_max)` resp. `randint(attack_min,
attack_max)`).  There is no hit roll in this path. -/

structure Enemy where
  id : String
  name : String
  hp : Int
  attack_min : Int
  attack_max : Int
deriving DecidableEq

def plainAttackResolve (p : Player) (target : Enemy) (base retaliation : Int) :
    Player × Enemy :=
  if p.current_hp ≤ 0 then (p, target)
  else
    let weapon_type := (match p.equipped_weapon with
      | some w => w.weapon_type
      | none => "fists")
    let stance_profile := stanceProfile p.stance
    let dmg := max 1 (pyTrunc
      (((base + pyDiv (effective_strength p) 2 : Int) : ℚ) * stance_profile.damage))
    let p := gain_weapon_xp p weapon_type 1
    let target := { target with hp := target.hp - dmg }
    if target.hp ≤ 0 then (p, target)
    else ((take_damage p retaliation 0).1, target)

/-! ### Sample combat states for witnesses and counterexamples -/

def sampleProfile : CombatProfile :=
  ⟨20, "training_spear", [], ["balanced"], 40, 30⟩

def sampleNPC : NPC := ⟨"sergeant", "Training Sergeant", some sampleProfile⟩

def profilelessNPC : NPC := ⟨"scribe", "Camp Scribe", none⟩

/-- The duel state `duelInit (fun _ => FISTS) initPlayer sampleNPC false`
produces (spelled out). -/
def sampleDuel : Duel :=
  { player := initPlayer, opponent := sampleNPC, profile := sampleProfile,
    enemy_hp := 20, enemy_max_hp := 20, enemy_stance := "balanced",
    enemy_weapon := FISTS, enemy_strength := 6 + pyDiv 40 10,
    enemy_dexterity := 5 + pyDiv 30 10, active := true, round := 1,
    forced_yield := false, sparring := false,
    player_hp_snapshot := initPlayer.current_hp, xp_multiplier := 1 }

def arenaBrawler : ArenaOpponent :=
  ⟨"Arena Brawler", 18, "fists", 1, 4, 40, 30, ["aggressive", "balanced"]⟩

def sampleArena : Arena := arenaInit initPlayer "bronze" arenaBrawler

/-! ### Claim C9 -/

/-- C9: constructing a Duel against an opponent whose combat profile is
absent fails with the fatal `ValueError` raised by the first statement
of `__init__`, before any session state is created or any combatant
field is assigned (the embedding returns the error and no `Duel` value,
and being pure it leaves both combatants untouched). -/
theorem duel_requires_combat_profile (loadWeapon : String → Weapon) (p : Player)
    (opponent : NPC) (sparring : Bool) (h : opponent.combat_profile = none) :
    duelInit loadWeapon p opponent sparring =
      Except.error "Opponent lacks a combat profile." := by
  unfold duelInit
  rw [h]

/-- Witness for C9: a concrete profile-less NPC. -/
theorem duel_requires_combat_profile_witness :
    profilelessNPC.combat_profile = none ∧
    duelInit (fun _ => FISTS) initPlayer profilelessNPC false =
      Except.error "Opponent lacks a combat profile." :=
  ⟨rfl, duel_requires_combat_profile (fun _ => FISTS) initPlayer profilelessNPC false rfl⟩

/-! ### Claim C10 -/

/-- C10: when the two initiative totals (d20 roll plus effective
dexterity, plus 2 when dodging) are equal, `_resolve_round` puts the
player first in the exchange. -/
theorem duel_initiative_tie_player_first (s : Duel) (player_action enemy_action : String)
    (pRoll eRoll : Int)
    (h : pRoll + effective_dexterity s.player + (if player_action = "dodge" then 2 else 0) =
         eRoll + s.enemy_dexterity + (if enemy_action = "dodge" then 2 else 0)) :
    duelOrder s player_action enemy_action pRoll eRoll = [.player, .enemy] := by
  simp only [duelOrder]
  rw [if_pos (le_of_eq h.symm)]

/-- Witness for C10: a tie at initiative 9 in the sample duel. -/
theorem duel_initiative_tie_player_first_witness :
    ((4:Int) + effective_dexterity sampleDuel.player +
        (if "strike" = "dodge" then 2 else 0) =
      1 + sampleDuel.enemy_dexterity + (if "strike" = "dodge" then 2 else 0)) ∧
    duelOrder sampleDuel "strike" "strike" 4 1 = [.player, .enemy] :=
  ⟨by decide,
    duel_initiative_tie_player_first sampleDuel "strike" "strike" 4 1 (by decide)⟩

/-! ### Claim C1 -/

theorem duelSparCheck_player (s : Duel) : (duelSparCheck s).player = s.player := by
  unfold duelSparCheck
  split_ifs <;> rfl

/-- C1 counterexample: in the arena the player's hit floor is 10, not
in [12, 15].  With hit score 31 against defense 61 a roll of 11 misses,
yet any floor in [12, 15] (in particular the extreme floors 12 and 15)
would make a roll of 11 a guaranteed hit under the claimed rule. -/
theorem arena_hit_floor_counterexample :
    (arenaPlayerAttack sampleArena "strike" "strike" 11 1).2 = some false ∧
    arenaPlayerHitScore sampleArena - arenaEnemyDodge sampleArena < 12 ∧
    (11:Int) ≤ max 12 (arenaPlayerHitScore sampleArena - arenaEnemyDodge sampleArena) ∧
    (11:Int) ≤ max 15 (arenaPlayerHitScore sampleArena - arenaEnemyDodge sampleArena) := by
  refine ⟨?_, by decide, by decide, by decide⟩
  simp only [arenaPlayerAttack]
  rw [if_neg (by decide : ¬ ("strike" : String) = "stance"),
      if_neg (by decide :
        ¬ (11:Int) ≤ max 10 (arenaPlayerHitScore sampleArena - arenaEnemyDodge sampleArena))]

/-- C1 (amended): each single-exchange resolution draws its hit roll
uniformly from [1,100] and hits iff roll ≤ max(floor, hit score −
defense score), with context floors 15 (duel player offense), 12 (duel
enemy offense), 10 (arena player attack) and 12 (arena enemy attack) —
i.e. floors range over [10, 15], not [12, 15] — while the plain
`Player.attack` resolution performs no hit roll at all: whenever the
attacker is conscious the target's HP strictly decreases for every
oracle outcome. -/
theorem exchange_hit_roll_rule
    (sd : Duel) (sa : Arena) (p : Player) (target : Enemy)
    (duelAct1 duelAct2 arenaAct arenaEnemyAct arenaPa1 arenaPa2 : String)
    (pe ee : ActionEffect)
    (r1 b1 r2 b2 r3 b3 i r4 b4 base ret : Int)
    (ha : arenaAct ≠ "stance") (hb : arenaEnemyAct ≠ "block")
    (hp0 : 0 < p.current_hp) :
    ((playerOffense sd duelAct1 pe ee r1 b1).2 = true ↔
      r1 ≤ max 15 (duelPlayerHitScore sd pe - enemyDodgeRating sd ee)) ∧
    ((enemyOffense sd duelAct2 ee pe r2 b2).2 = true ↔
      r2 ≤ max 12 (duelEnemyHitScore sd ee - duelPlayerDodge sd pe)) ∧
    ((arenaPlayerAttack sa arenaAct arenaPa1 r3 b3).2 =
      some (decide (r3 ≤ max 10 (arenaPlayerHitScore sa - arenaEnemyDodge sa)))) ∧
    ((arenaEnemyAttack sa arenaEnemyAct arenaPa2 i r4 b4).2 =
      some (decide (r4 ≤ max 12
        (arenaEnemyHitScore sa (stanceGetD (pyChoice sa.opponent.preferred_stances i)) -
          arenaPlayerDodge sa arenaPa2)))) ∧
    (plainAttackResolve p target base ret).2.hp < target.hp := by
  refine ⟨?_, ?_, ?_, ?_, ?_⟩
  · simp only [playerOffense]
    split_ifs with h <;> simp [h]
  · simp only [enemyOffense]
    split_ifs with h <;> simp [h]
  · simp only [arenaPlayerAttack]
    rw [if_neg ha]
    split_ifs with h <;> simp [h]
  · simp only [arenaEnemyAttack]
    rw [if_neg hb]
    split_ifs with h <;> simp [h]
  · simp only [plainAttackResolve]
    rw [if_neg (by omega : ¬ p.current_hp ≤ 0)]
    have hd : (1:Int) ≤ max 1 (pyTrunc
        (((base + pyDiv (effective_strength p) 2 : Int) : ℚ) *
          (stanceProfile p.stance).damage)) := le_max_left _ _
    split_ifs <;> simp <;> omega

/-- Witness for C1: concrete states, actions and rolls. -/
theorem exchange_hit_roll_rule_witness :
    ("strike" : String) ≠ "stance" ∧ ("strike" : String) ≠ "block" ∧
    0 < initPlayer.current_hp ∧
    (((playerOffense sampleDuel "strike" strikeEffect strikeEffect 40 1).2 = true ↔
      (40:Int) ≤ max 15 (duelPlayerHitScore sampleDuel strikeEffect -
        enemyDodgeRating sampleDuel strikeEffect)) ∧
    ((enemyOffense sampleDuel "strike" strikeEffect strikeEffect 40 1).2 = true ↔
      (40:Int) ≤ max 12 (duelEnemyHitScore sampleDuel strikeEffect -
        duelPlayerDodge sampleDuel strikeEffect)) ∧
    ((arenaPlayerAttack sampleArena "strike" "strike" 40 1).2 =
      some (decide ((40:Int) ≤ max 10 (arenaPlayerHitScore sampleArena -
        arenaEnemyDodge sampleArena)))) ∧
    ((arenaEnemyAttack sampleArena "strike" "strike" 0 40 1).2 =
      some (decide ((40:Int) ≤ max 12
        (arenaEnemyHitScore sampleArena
          (stanceGetD (pyChoice sampleArena.opponent.preferred_stances 0)) -
          arenaPlayerDodge sampleArena "strike")))) ∧
    (plainAttackResolve initPlayer ⟨"parshendi_scout", "Parshendi Scout", 10, 1, 3⟩ 1 1).2.hp <
      (⟨"parshendi_scout", "Parshendi Scout", 10, 1, 3⟩ : Enemy).hp) :=
  ⟨by decide, by decide, by decide,
    exchange_hit_roll_rule sampleDuel sampleArena initPlayer
      ⟨"parshendi_scout", "Parshendi Scout", 10, 1, 3⟩
      "strike" "strike" "strike" "strike" "strike" "strike"
      strikeEffect strikeEffect 40 1 40 1 40 1 0 40 1 1 1
      (by decide) (by decide) (by decide)⟩

/-! ### Claim C3 -/

theorem lookupSkill_setSkill (l : List (String × Int)) (k : String) (v : Int) :
    lookupSkill (setSkill l k v) k = some v := by
  induction l with
  | nil => simp [setSkill, lookupSkill]
  | cons kv rest ih =>
      obtain ⟨k', v'⟩ := kv
      by_cases h : k' = k <;> simp [setSkill, lookupSkill, h, ih]

theorem gain_weapon_xp_lookup (p : Player) (weapon_type : String) (amount : Int) :
    lookupSkill (gain_weapon_xp p weapon_type amount).weapon_skill weapon_type =
      some (min 100 (weaponSkillOrFists p weapon_type + amount)) := by
  simp [gain_weapon_xp, weaponSkillOrFists, lookupSkill_setSkill]

/-- C3 counterexample: in the duel a stance input is normalised into a
`"block"` attack and resolved as one, so it does grant attack XP: in
the sample duel the player's fists skill rises from 5 to 6 on a stance
exchange (miss path; a hit would have granted 2). -/
theorem duel_stance_action_grants_xp_counterexample :
    (normalizePlayerAction sampleDuel ⟨"stance", some "balanced"⟩).2 = "block" ∧
    lookupSkill sampleDuel.player.weapon_skill "fists" = some 5 ∧
    lookupSkill ((playerOffense (normalizePlayerAction sampleDuel ⟨"stance", some "balanced"⟩).1
      "block" blockEffect strikeEffect 50 1).1.player.weapon_skill) "fists" = some 6 := by
  refine ⟨by decide, by decide, ?_⟩
  decide

/-- C3 (amended): every resolved player attack in the duel and arena
engines grants the player weapon XP whether it hits or misses, with
hit XP (2 × multiplier) > miss XP (1 × multiplier) > 0; in the arena a
stance-change grants no attack XP (the player state is untouched),
while in the duel a stance input is normalised to a block attack and
grants XP like any attack (see the counterexample).  Enemy attacks
touch no skill state (NPC profiles are static). -/
theorem player_attack_xp_rule (sd : Duel) (sa : Arena)
    (duelAct arenaAct aEnemy1 aEnemy2 : String) (pe ee : ActionEffect)
    (r1 b1 r3 b3 r5 b5 : Int)
    (hmult : 1 ≤ sd.xp_multiplier) (ha : arenaAct ≠ "stance") :
    ((playerOffense sd duelAct pe ee r1 b1).2 = true →
      lookupSkill (playerOffense sd duelAct pe ee r1 b1).1.player.weapon_skill
          (playerWeapon sd.player).2 =
        some (min 100 (weaponSkillOrFists sd.player (playerWeapon sd.player).2 +
          2 * sd.xp_multiplier))) ∧
    ((playerOffense sd duelAct pe ee r1 b1).2 = false →
      lookupSkill (playerOffense sd duelAct pe ee r1 b1).1.player.weapon_skill
          (playerWeapon sd.player).2 =
        some (min 100 (weaponSkillOrFists sd.player (playerWeapon sd.player).2 +
          1 * sd.xp_multiplier))) ∧
    (0 < 1 * sd.xp_multiplier ∧ 1 * sd.xp_multiplier < 2 * sd.xp_multiplier) ∧
    ((arenaPlayerAttack sa arenaAct aEnemy1 r3 b3).2 = some true →
      lookupSkill (arenaPlayerAttack sa arenaAct aEnemy1 r3 b3).1.player.weapon_skill
          (arenaPlayerWeapon sa.player).weapon_type =
        some (min 100 (weaponSkillOrFists sa.player
          (arenaPlayerWeapon sa.player).weapon_type + 2))) ∧
    ((arenaPlayerAttack sa arenaAct aEnemy1 r3 b3).2 = some false →
      lookupSkill (arenaPlayerAttack sa arenaAct aEnemy1 r3 b3).1.player.weapon_skill
          (arenaPlayerWeapon sa.player).weapon_type =
        some (min 100 (weaponSkillOrFists sa.player
          (arenaPlayerWeapon sa.player).weapon_type + 1))) ∧
    (arenaPlayerAttack sa "stance" aEnemy2 r5 b5).1.player = sa.player := by
  refine ⟨?_, ?_, ⟨by omega, by omega⟩, ?_, ?_, ?_⟩
  · intro hhit
    by_cases h : r1 ≤ max 15 (duelPlayerHitScore sd pe - enemyDodgeRating sd ee)
    · simp only [playerOffense, if_pos h]
      simp [duelSparCheck_player, gain_weapon_xp_lookup]
    · simp only [playerOffense, if_neg h] at hhit
      simp at hhit
  · intro hmiss
    by_cases h : r1 ≤ max 15 (duelPlayerHitScore sd pe - enemyDodgeRating sd ee)
    · simp only [playerOffense, if_pos h] at hmiss
      simp at hmiss
    · simp only [playerOffense, if_neg h]
      simp [duelSparCheck_player, gain_weapon_xp_lookup]
  · intro hhit
    by_cases h : r3 ≤ max 10 (arenaPlayerHitScore sa - arenaEnemyDodge sa)
    · simp only [arenaPlayerAttack, if_neg ha, if_pos h]
      simp [gain_weapon_xp_lookup]
    · simp only [arenaPlayerAttack, if_neg ha, if_neg h] at hhit
      simp at hhit
  · intro hmiss
    by_cases h : r3 ≤ max 10 (arenaPlayerHitScore sa - arenaEnemyDodge sa)
    · simp only [arenaPlayerAttack, if_neg ha, if_pos h] at hmiss
      simp at hmiss
    · simp only [arenaPlayerAttack, if_neg ha, if_neg h]
      simp [gain_weapon_xp_lookup]
  · simp [arenaPlayerAttack]

/-- Witness for C3: the sample duel (multiplier 1) and sample arena. -/
theorem player_attack_xp_rule_witness :
    1 ≤ sampleDuel.xp_multiplier ∧ ("strike" : String) ≠ "stance" ∧
    (((playerOffense sampleDuel "strike" strikeEffect strikeEffect 40 1).2 = true →
      lookupSkill (playerOffense sampleDuel "strike" strikeEffect strikeEffect 40 1).1.player.weapon_skill
          (playerWeapon sampleDuel.player).2 =
        some (min 100 (weaponSkillOrFists sampleDuel.player (playerWeapon sampleDuel.player).2 +
          2 * sampleDuel.xp_multiplier))) ∧
    ((playerOffense sampleDuel "strike" strikeEffect strikeEffect 40 1).2 = false →
      lookupSkill (playerOffense sampleDuel "strike" strikeEffect strikeEffect 40 1).1.player.weapon_skill
          (playerWeapon sampleDuel.player).2 =
        some (min 100 (weaponSkillOrFists sampleDuel.player (playerWeapon sampleDuel.player).2 +
          1 * sampleDuel.xp_multiplier))) ∧
    (0 < 1 * sampleDuel.xp_multiplier ∧
      1 * sampleDuel.xp_multiplier < 2 * sampleDuel.xp_multiplier) ∧
    ((arenaPlayerAttack sampleArena "strike" "strike" 40 1).2 = some true →
      lookupSkill (arenaPlayerAttack sampleArena "strike" "strike" 40 1).1.player.weapon_skill
          (arenaPlayerWeapon sampleArena.player).weapon_type =
        some (min 100 (weaponSkillOrFists sampleArena.player
          (arenaPlayerWeapon sampleArena.player).weapon_type + 2))) ∧
    ((arenaPlayerAttack sampleArena "strike" "strike" 40 1).2 = some false →
      lookupSkill (arenaPlayerAttack sampleArena "strike" "strike" 40 1).1.player.weapon_skill
          (arenaPlayerWeapon sampleArena.player).weapon_type =
        some (min 100 (weaponSkillOrFists sampleArena.player
          (arenaPlayerWeapon sampleArena.player).weapon_type + 1))) ∧
    (arenaPlayerAttack sampleArena "stance" "strike" 40 1).1.player = sampleArena.player) :=
  ⟨by decide, by decide,
    player_attack_xp_rule sampleDuel sampleArena "strike" "strike" "strike" "strike"
      strikeEffect strikeEffect 40 1 40 1 40 1 (by decide) (by decide)⟩

/-! ### Claim C4 -/

theorem arenaPlayerAttack_player_fatigue (s : Arena) (a ea : String) (r b : Int) :
    (arenaPlayerAttack s a ea r b).1.player_fatigue =
      if a = "stance" then s.player_fatigue else min 100 (s.player_fatigue + 7) := by
  simp only [arenaPlayerAttack]
  split_ifs <;> rfl

theorem arenaEnemyAttack_enemy_fatigue (s : Arena) (a pa : String) (i r b : Int) :
    (arenaEnemyAttack s a pa i r b).1.enemy_fatigue =
      if a = "block" then min 100 (s.enemy_fatigue + 3)
      else min 100 (s.enemy_fatigue + 8) := by
  simp only [arenaEnemyAttack]
  split_ifs <;> rfl

def fatiguedArena : Arena :=
  { sampleArena with player_fatigue := 50, enemy_fatigue := 50 }

/-- C4 counterexample: `_decay_states` does not decrease fatigue at the
round boundary — with both fatigues at 50 they are still exactly 50
after the decay step (only morale and crowd favor decay). -/
theorem arena_fatigue_no_decay_counterexample :
    fatiguedArena.player_fatigue = 50 ∧ fatiguedArena.enemy_fatigue = 50 ∧
    (arenaDecayStates fatiguedArena 0).player_fatigue = 50 ∧
    (arenaDecayStates fatiguedArena 0).enemy_fatigue = 50 := by
  decide

/-- C4 (amended): in every ArenaMatch each side's fatigue stays within
[0,100] and (weakly) increases with each attack exchange — +7 per
player attack, +8 per enemy attack, +3 when the enemy blocks, all
clamped at 100, with a player stance-change exchange leaving the
player's fatigue unchanged — but fatigue is NOT decayed at round
boundaries: `_decay_states` leaves both fatigues untouched. -/
theorem arena_fatigue_rule (s : Arena) (action enemy_action pa1 pa2 : String)
    (r b i r2 b2 c : Int) (hs : action ≠ "stance")
    (hpf0 : 0 ≤ s.player_fatigue) (hpf1 : s.player_fatigue ≤ 100)
    (hef0 : 0 ≤ s.enemy_fatigue) (hef1 : s.enemy_fatigue ≤ 100) :
    (arenaPlayerAttack s action pa1 r b).1.player_fatigue =
      min 100 (s.player_fatigue + 7) ∧
    (arenaPlayerAttack s "stance" pa1 r b).1.player_fatigue = s.player_fatigue ∧
    (arenaEnemyAttack s enemy_action pa2 i r2 b2).1.enemy_fatigue =
      (if enemy_action = "block" then min 100 (s.enemy_fatigue + 3)
       else min 100 (s.enemy_fatigue + 8)) ∧
    s.player_fatigue ≤ (arenaPlayerAttack s action pa1 r b).1.player_fatigue ∧
    0 ≤ (arenaPlayerAttack s action pa1 r b).1.player_fatigue ∧
    (arenaPlayerAttack s action pa1 r b).1.player_fatigue ≤ 100 ∧
    s.enemy_fatigue ≤ (arenaEnemyAttack s enemy_action pa2 i r2 b2).1.enemy_fatigue ∧
    0 ≤ (arenaEnemyAttack s enemy_action pa2 i r2 b2).1.enemy_fatigue ∧
    (arenaEnemyAttack s enemy_action pa2 i r2 b2).1.enemy_fatigue ≤ 100 ∧
    (arenaDecayStates s c).player_fatigue = s.player_fatigue ∧
    (arenaDecayStates s c).enemy_fatigue = s.enemy_fatigue := by
  have h1 := arenaPlayerAttack_player_fatigue s action pa1 r b
  have h2 := arenaPlayerAttack_player_fatigue s "stance" pa1 r b
  have h3 := arenaEnemyAttack_enemy_fatigue s enemy_action pa2 i r2 b2
  rw [if_neg hs] at h1
  rw [if_pos rfl] at h2
  refine ⟨h1, h2, h3, ?_, ?_, ?_, ?_, ?_, ?_, rfl, rfl⟩
  · rw [h1]; omega
  · rw [h1]; omega
  · rw [h1]; omega
  · rw [h3]; split_ifs <;> omega
  · rw [h3]; split_ifs <;> omega
  · rw [h3]; split_ifs <;> omega

/-- Witness for C4: the sample arena at its initial fatigues. -/
theorem arena_fatigue_rule_witness :
    ("strike" : String) ≠ "stance" ∧
    0 ≤ sampleArena.player_fatigue ∧ sampleArena.player_fatigue ≤ 100 ∧
    0 ≤ sampleArena.enemy_fatigue ∧ sampleArena.enemy_fatigue ≤ 100 ∧
    ((arenaPlayerAttack sampleArena "strike" "strike" 40 1).1.player_fatigue =
      min 100 (sampleArena.player_fatigue + 7) ∧
    (arenaPlayerAttack sampleArena "stance" "strike" 40 1).1.player_fatigue =
      sampleArena.player_fatigue ∧
    (arenaEnemyAttack sampleArena "strike" "strike" 0 40 1).1.enemy_fatigue =
      (if ("strike" : String) = "block" then min 100 (sampleArena.enemy_fatigue + 3)
       else min 100 (sampleArena.enemy_fatigue + 8)) ∧
    sampleArena.player_fatigue ≤
      (arenaPlayerAttack sampleArena "strike" "strike" 40 1).1.player_fatigue ∧
    0 ≤ (arenaPlayerAttack sampleArena "strike" "strike" 40 1).1.player_fatigue ∧
    (arenaPlayerAttack sampleArena "strike" "strike" 40 1).1.player_fatigue ≤ 100 ∧
    sampleArena.enemy_fatigue ≤
      (arenaEnemyAttack sampleArena "strike" "strike" 0 40 1).1.enemy_fatigue ∧
    0 ≤ (arenaEnemyAttack sampleArena "strike" "strike" 0 40 1).1.enemy_fatigue ∧
    (arenaEnemyAttack sampleArena "strike" "strike" 0 40 1).1.enemy_fatigue ≤ 100 ∧
    (arenaDecayStates sampleArena 0).player_fatigue = sampleArena.player_fatigue ∧
    (arenaDecayStates sampleArena 0).enemy_fatigue = sampleArena.enemy_fatigue) :=
  ⟨by decide, by decide, by decide, by decide, by decide,
    arena_fatigue_rule sampleArena "strike" "strike" "strike" "strike" 40 1 0 40 1 0
      (by decide) (by decide) (by decide) (by decide) (by decide)⟩

/-! ### Claim C5 -/

theorem arenaPlayerAttack_flag (s : Arena) (a ea : String) (r b : Int) :
    (arenaPlayerAttack s a ea r b).2 =
      if a = "stance" then none
      else some (decide (r ≤ max 10 (arenaPlayerHitScore s - arenaEnemyDodge s))) := by
  simp only [arenaPlayerAttack]
  split_ifs <;> simp_all

theorem arenaEnemyAttack_flag (s : Arena) (a pa : String) (i r b : Int) :
    (arenaEnemyAttack s a pa i r b).2 =
      if a = "block" then none
      else some (decide (r ≤ max 12
        (arenaEnemyHitScore s (stanceGetD (pyChoice s.opponent.preferred_stances i)) -
          arenaPlayerDodge s pa))) := by
  simp only [arenaEnemyAttack]
  split_ifs <;> simp_all

def lowMoraleArena : Arena := { sampleArena with player_morale := 30 }

/-- C5 counterexample: a landed enemy attack moves the enemy's morale
by +4 and the player's by −6, not by 5; and round-boundary decay steps
morale toward 0, not toward the neutral 50 — at morale 30 the decay
moves it to 29, away from neutral. -/
theorem arena_morale_not_five_counterexample :
    (arenaEnemyAttack sampleArena "strike" "strike" 0 50 1).2 = some true ∧
    sampleArena.player_morale = 50 ∧ sampleArena.enemy_morale = 50 ∧
    (arenaEnemyAttack sampleArena "strike" "strike" 0 50 1).1.player_morale = 44 ∧
    (arenaEnemyAttack sampleArena "strike" "strike" 0 50 1).1.enemy_morale = 54 ∧
    lowMoraleArena.player_morale = 30 ∧
    (arenaDecayStates lowMoraleArena 0).player_morale = 29 := by
  have hhit : (50:Int) ≤ max 12
      (arenaEnemyHitScore sampleArena
        (stanceGetD (pyChoice sampleArena.opponent.preferred_stances 0)) -
        arenaPlayerDodge sampleArena "strike") := by decide
  have hblock : ("strike" : String) ≠ "block" := by decide
  refine ⟨?_, by decide, by decide, ?_, ?_, by decide, by decide⟩
  · rw [arenaEnemyAttack_flag, if_neg hblock]
    simp [hhit]
  · simp only [arenaEnemyAttack, if_neg hblock, if_pos hhit]
    decide
  · simp only [arenaEnemyAttack, if_neg hblock, if_pos hhit]
    decide

/-- C5 (amended): arena morale bookkeeping per exchange and per round:
a landed player attack moves player morale +5 and enemy morale −5
(clamped to [0,100]); a missed player attack moves no morale; a landed
enemy attack moves enemy morale +4 and player morale −6; a missed
enemy attack (and the enemy's block) moves no morale; at each round
boundary `_decay_states` lowers each morale by exactly 1, clamped at 0
(decay toward 0, not toward a neutral value). -/
theorem arena_morale_rule (s : Arena) (a ea e pa : String) (r b i r2 b2 c : Int) :
    ((arenaPlayerAttack s a ea r b).2 = some true →
      (arenaPlayerAttack s a ea r b).1.player_morale = min 100 (s.player_morale + 5) ∧
      (arenaPlayerAttack s a ea r b).1.enemy_morale = max 0 (s.enemy_morale - 5)) ∧
    ((arenaPlayerAttack s a ea r b).2 = some false →
      (arenaPlayerAttack s a ea r b).1.player_morale = s.player_morale ∧
      (arenaPlayerAttack s a ea r b).1.enemy_morale = s.enemy_morale) ∧
    ((arenaEnemyAttack s e pa i r2 b2).2 = some true →
      (arenaEnemyAttack s e pa i r2 b2).1.enemy_morale = min 100 (s.enemy_morale + 4) ∧
      (arenaEnemyAttack s e pa i r2 b2).1.player_morale = max 0 (s.player_morale - 6)) ∧
    ((arenaEnemyAttack s e pa i r2 b2).2 = some false →
      (arenaEnemyAttack s e pa i r2 b2).1.enemy_morale = s.enemy_morale ∧
      (arenaEnemyAttack s e pa i r2 b2).1.player_morale = s.player_morale) ∧
    (arenaDecayStates s c).player_morale = max 0 (s.player_morale - 1) ∧
    (arenaDecayStates s c).enemy_morale = max 0 (s.enemy_morale - 1) := by
  refine ⟨?_, ?_, ?_, ?_, rfl, rfl⟩
  · intro h
    rw [arenaPlayerAttack_flag] at h
    by_cases hs : a = "stance"
    · simp [hs] at h
    · rw [if_neg hs] at h
      have hc := of_decide_eq_true (Option.some.inj h)
      simp only [arenaPlayerAttack, if_neg hs, if_pos hc]
      exact ⟨by trivial, by trivial⟩
  · intro h
    rw [arenaPlayerAttack_flag] at h
    by_cases hs : a = "stance"
    · simp [hs] at h
    · rw [if_neg hs] at h
      have hc := of_decide_eq_false (Option.some.inj h)
      simp only [arenaPlayerAttack, if_neg hs, if_neg hc]
      exact ⟨by trivial, by trivial⟩
  · intro h
    rw [arenaEnemyAttack_flag] at h
    by_cases hb : e = "block"
    · simp [hb] at h
    · rw [if_neg hb] at h
      have hc := of_decide_eq_true (Option.some.inj h)
      simp only [arenaEnemyAttack, if_neg hb, if_pos hc]
      exact ⟨by trivial, by trivial⟩
  · intro h
    rw [arenaEnemyAttack_flag] at h
    by_cases hb : e = "block"
    · simp [hb] at h
    · rw [if_neg hb] at h
      have hc := of_decide_eq_false (Option.some.inj h)
      simp only [arenaEnemyAttack, if_neg hb, if_neg hc]
      exact ⟨by trivial, by trivial⟩

/-- Witness for C5: the sample arena, strikes on both sides. -/
theorem arena_morale_rule_witness :
    ((arenaPlayerAttack sampleArena "strike" "strike" 40 1).2 = some true →
      (arenaPlayerAttack sampleArena "strike" "strike" 40 1).1.player_morale =
        min 100 (sampleArena.player_morale + 5) ∧
      (arenaPlayerAttack sampleArena "strike" "strike" 40 1).1.enemy_morale =
        max 0 (sampleArena.enemy_morale - 5)) ∧
    ((arenaPlayerAttack sampleArena "strike" "strike" 40 1).2 = some false →
      (arenaPlayerAttack sampleArena "strike" "strike" 40 1).1.player_morale =
        sampleArena.player_morale ∧
      (arenaPlayerAttack sampleArena "strike" "strike" 40 1).1.enemy_morale =
        sampleArena.enemy_morale) ∧
    ((arenaEnemyAttack sampleArena "strike" "strike" 0 40 1).2 = some true →
      (arenaEnemyAttack sampleArena "strike" "strike" 0 40 1).1.enemy_morale =
        min 100 (sampleArena.enemy_morale + 4) ∧
      (arenaEnemyAttack sampleArena "strike" "strike" 0 40 1).1.player_morale =
        max 0 (sampleArena.player_morale - 6)) ∧
    ((arenaEnemyAttack sampleArena "strike" "strike" 0 40 1).2 = some false →
      (arenaEnemyAttack sampleArena "strike" "strike" 0 40 1).1.enemy_morale =
        sampleArena.enemy_morale ∧
      (arenaEnemyAttack sampleArena "strike" "strike" 0 40 1).1.player_morale =
        sampleArena.player_morale) ∧
    (arenaDecayStates sampleArena 0).player_morale =
      max 0 (sampleArena.player_morale - 1) ∧
    (arenaDecayStates sampleArena 0).enemy_morale =
      max 0 (sampleArena.enemy_morale - 1) :=
  arena_morale_rule sampleArena "strike" "strike" "strike" "strike" 40 1 0 40 1 0

/-! ### Claim C8 -/

theorem parsePlayerAction_yield : parsePlayerAction "yield" = ⟨"yield", none⟩ := rfl

theorem arenaPromptAction_yield (s : Arena) : arenaPromptAction s "yield" = (s, "yield") := rfl

theorem duelSummarize_enemy_hp (s : Duel) : (duelSummarize s).enemy_hp = s.enemy_hp := by
  unfold duelSummarize
  split_ifs <;> rfl

theorem duelSummarize_active (s : Duel) : (duelSummarize s).active = s.active := by
  unfold duelSummarize
  split_ifs <;> rfl

theorem duelSummarize_player_of_enemy_alive (s : Duel) (h : ¬ s.enemy_hp ≤ 0) :
    (duelSummarize s).player = s.player := by
  unfold duelSummarize
  by_cases a : s.player.current_hp ≤ 0
  · rw [if_pos a]
  · rw [if_neg a, if_neg h]

theorem duelSummarize_ws_of_enemy_alive (s : Duel) (h : 0 < s.enemy_hp) :
    (duelSummarize s).player.weapon_skill = s.player.weapon_skill := by
  rw [duelSummarize_player_of_enemy_alive s (not_le.mpr h)]

theorem arenaLoop_yield_first (fuel : Nat) (acts : List String) (rnd : List Int)
    (s : Arena) (h1 : s.active = true) (h2 : 0 < s.player.current_hp)
    (h3 : 0 < s.enemy_hp) :
    arenaLoop (fuel+1) ("yield" :: acts) rnd s = ({ s with player_yield := true }, rnd) := by
  unfold arenaLoop
  rw [if_pos ⟨h1, h2, h3⟩]
  unfold_let
  rw [show drawAct ("yield" :: acts) = ("yield", acts) from rfl]
  rw [show arenaPromptAction s (("yield", acts) : String × List String).1 = (s, "yield") from
    arenaPromptAction_yield s]
  rw [if_pos (show ((s, "yield") : Arena × String).2 = "yield" from rfl)]

theorem duelLoop_yield_first (fuel : Nat) (acts : List String) (rnd : List Int)
    (s : Duel) (h1 : s.active = true) (h2 : 0 < s.player.current_hp)
    (h3 : 0 < s.enemy_hp) :
    duelLoop (fuel+1) ("yield" :: acts) rnd s = duelPlayerYield s := by
  unfold duelLoop
  rw [if_pos ⟨h1, h2, h3⟩]
  unfold_let
  rw [show drawAct ("yield" :: acts) = ("yield", acts) from rfl]
  rw [show parsePlayerAction (("yield", acts) : String × List String).1 =
    (⟨"yield", none⟩ : PlayerChoice) from parsePlayerAction_yield]
  rw [if_pos (show (⟨"yield", none⟩ : PlayerChoice).action = "yield" from rfl)]

/-- C8: a first-round yield, before any exchange is resolved, ends the
session in the yielded terminal state with zero rewards and the
opponent's HP untouched: the arena returns victory false / fame 0 /
marks 0 / no item with the yield flag set and enemy HP unchanged, and
the duel deactivates with enemy HP and player weapon skills unchanged
(no victory XP). -/
theorem yield_round_one_rule (sd : Duel) (sa : Arena) (fuel1 fuel2 : Nat)
    (acts1 acts2 : List String) (rnd1 rnd2 : List Int)
    (hd1 : sd.active = true) (hd2 : 0 < sd.player.current_hp) (hd3 : 0 < sd.enemy_hp)
    (ha1 : sa.active = true) (ha2 : 0 < sa.player.current_hp) (ha3 : 0 < sa.enemy_hp) :
    (arenaRun (fuel2+1) ("yield" :: acts2) rnd2 sa).1.victory = false ∧
    (arenaRun (fuel2+1) ("yield" :: acts2) rnd2 sa).1.fame = 0 ∧
    (arenaRun (fuel2+1) ("yield" :: acts2) rnd2 sa).1.marks = 0 ∧
    (arenaRun (fuel2+1) ("yield" :: acts2) rnd2 sa).1.item = none ∧
    (arenaRun (fuel2+1) ("yield" :: acts2) rnd2 sa).2.enemy_hp = sa.enemy_hp ∧
    (arenaRun (fuel2+1) ("yield" :: acts2) rnd2 sa).2.player_yield = true ∧
    (duelRun (fuel1+1) ("yield" :: acts1) rnd1 sd).enemy_hp = sd.enemy_hp ∧
    (duelRun (fuel1+1) ("yield" :: acts1) rnd1 sd).active = false ∧
    (duelRun (fuel1+1) ("yield" :: acts1) rnd1 sd).player.weapon_skill =
      sd.player.weapon_skill := by
  have hloop := arenaLoop_yield_first fuel2 acts2 rnd2 sa ha1 ha2 ha3
  have hdl := duelLoop_yield_first fuel1 acts1 rnd1
    { sd with player := recalcDodge sd.player }
    (by simpa using hd1) (by simpa [recalcDodge] using hd2) (by simpa using hd3)
  have hrun : arenaRun (fuel2+1) ("yield" :: acts2) rnd2 sa =
      (arenaFinish { sa with player_yield := true } rnd2,
        { sa with player_yield := true }) := by
    simp only [arenaRun, hloop]
  refine ⟨?_, ?_, ?_, ?_, ?_, ?_, ?_, ?_, ?_⟩
  · rw [hrun]; simp [arenaFinish]
  · rw [hrun]; simp [arenaFinish]
  · rw [hrun]; simp [arenaFinish]
  · rw [hrun]; simp [arenaFinish]
  · rw [hrun]
  · rw [hrun]
  · simp only [duelRun, hdl, duelPlayerYield]
    rw [duelSummarize_enemy_hp]
    split_ifs <;> rfl
  · simp only [duelRun, hdl, duelPlayerYield]
    rw [duelSummarize_active]
    split_ifs <;> rfl
  · simp only [duelRun, hdl, duelPlayerYield]
    split_ifs with hsp
    · rw [duelSummarize_ws_of_enemy_alive]
      · rfl
      · exact hd3
    · rw [duelSummarize_ws_of_enemy_alive]
      · rfl
      · exact hd3

/-- Witness for C8: yielding immediately in the sample duel and the
sample arena match. -/
theorem yield_round_one_rule_witness :
    sampleDuel.active = true ∧ 0 < sampleDuel.player.current_hp ∧ 0 < sampleDuel.enemy_hp ∧
    sampleArena.active = true ∧ 0 < sampleArena.player.current_hp ∧ 0 < sampleArena.enemy_hp ∧
    ((arenaRun (0+1) ("yield" :: ([] : List String)) ([] : List Int) sampleArena).1.victory = false ∧
    (arenaRun (0+1) ("yield" :: ([] : List String)) ([] : List Int) sampleArena).1.fame = 0 ∧
    (arenaRun (0+1) ("yield" :: ([] : List String)) ([] : List Int) sampleArena).1.marks = 0 ∧
    (arenaRun (0+1) ("yield" :: ([] : List String)) ([] : List Int) sampleArena).1.item = none ∧
    (arenaRun (0+1) ("yield" :: ([] : List String)) ([] : List Int) sampleArena).2.enemy_hp =
      sampleArena.enemy_hp ∧
    (arenaRun (0+1) ("yield" :: ([] : List String)) ([] : List Int) sampleArena).2.player_yield = true ∧
    (duelRun (0+1) ("yield" :: ([] : List String)) ([] : List Int) sampleDuel).enemy_hp =
      sampleDuel.enemy_hp ∧
    (duelRun (0+1) ("yield" :: ([] : List String)) ([] : List Int) sampleDuel).active = false ∧
    (duelRun (0+1) ("yield" :: ([] : List String)) ([] : List Int) sampleDuel).player.weapon_skill =
      sampleDuel.player.weapon_skill) :=
  ⟨by decide, by decide, by decide, by decide, by decide, by decide,
    yield_round_one_rule sampleDuel sampleArena 0 0 [] [] [] []
      (by decide) (by decide) (by decide) (by decide) (by decide) (by decide)⟩

end LocalMUD
